import Mathlib

/-!
Verification of the Skool community scraper (`Skool/skool_scraper.py`).

The Python program is a single-threaded Selenium scraper.  This file gives a
shallow embedding of its pagination loop (`SkoolScraper.scroll_and_load_posts`),
its per-item field extraction (`SkoolScraper.extract_post_data`), the batch
extraction loop (`SkoolScraper.scrape_posts`) and the two exporters
(`save_to_json` / `save_to_csv`), and proves or refutes the specification
claims about them.

Modelling conventions:
  * The browser feed is an environment parameter `feed : Nat → List α`:
    `feed t` is the list of elements matched by the selector-union query at the
    `t`-th recount performed by the scroll loop (the loop recounts once per
    iteration).
  * Python `None` is `Option.none`; a `WebElement.get_attribute` result is an
    `Option String`.
  * A selector probe that raises `NoSuchElementException` is modelled as a
    `none` entry in the per-selector list of probe outcomes.
  * Python machine-level exceptions other than the ones the code handles are
    abstracted by the `raises` flag of a `PostElement`: the catch-all
    `except Exception` in `extract_post_data` turns any such element into a
    `none` result.
  * `datetime.now()` is an abstract instant `now : Nat`; `hash` is an
    environment parameter `pyHash : String → Int` (CPython's string hash is
    seeded and platform dependent, so it is treated as an arbitrary function).
  * Python strings are `String`; slicing, `strip`, digit filtering and
    `str(int)` are embedded character-exactly below.
-/

namespace Skool

/-! ## Pagination loader: `SkoolScraper.scroll_and_load_posts` (lines 140-164)

```python
posts_loaded = 0
scroll_attempts = 0
max_scroll_attempts = 10
while posts_loaded < max_posts and scroll_attempts < max_scroll_attempts:
    ...scroll...
    post_elements = self.driver.find_elements(...)
    current_count = len(post_elements)
    if current_count > posts_loaded:
        posts_loaded = current_count
    else:
        scroll_attempts += 1
    ...
return post_elements[:max_posts]
```

`max_posts` is a Python `int`, embedded as `Int`.  `post_elements` is unbound
until the loop body has run at least once, so the final state carries it as an
`Option (List α)`; the slice on an unbound name raises, which the embedding
renders as `none`. -/

/-- Final state of the `while` loop of `scroll_and_load_posts`:
the two counters, the last value bound to `post_elements` (or `none` if the
loop body never ran), and the number of iterations executed. -/
structure ScrollResult (α : Type) where
  posts_loaded : Nat
  scroll_attempts : Nat
  post_elements : Option (List α)
  iterations : Nat
  deriving DecidableEq

/-- The `while` loop of `scroll_and_load_posts`, fuelled.  `t` is the index of
the next recount (equal to the number of iterations already executed).  The
fuel is an upper bound on the remaining iterations; `scrollRun` below supplies
a provably sufficient amount (see `scrollRun_spec`), so the fuel-out branch is
never taken there. -/
def scrollLoopFuel (feed : Nat → List α) (max_posts : Int) :
    Nat → Nat → Nat → Nat → Option (List α) → ScrollResult α
  | 0, t, pl, sa, last => ⟨pl, sa, last, t⟩
  | fuel + 1, t, pl, sa, last =>
    if (pl : Int) < max_posts ∧ sa < 10 then
      if pl < (feed t).length then
        scrollLoopFuel feed max_posts fuel (t + 1) (feed t).length sa (some (feed t))
      else
        scrollLoopFuel feed max_posts fuel (t + 1) pl (sa + 1) (some (feed t))
    else ⟨pl, sa, last, t⟩

/-- Run the loop of `scroll_and_load_posts` from its initial state
(`posts_loaded = 0`, `scroll_attempts = 0`, `post_elements` unbound). -/
def scrollRun (feed : Nat → List α) (max_posts : Int) : ScrollResult α :=
  scrollLoopFuel feed max_posts (max_posts.toNat + 10) 0 0 0 none

/-- Python list slice `l[:m]` for an `int` bound `m` (negative bounds count
from the end, clamped at zero). -/
def pySliceTo (l : List α) (m : Int) : List α :=
  if 0 ≤ m then l.take m.toNat else l.take (l.length - (-m).toNat)

/-- `SkoolScraper.scroll_and_load_posts`: run the loop, then return
`post_elements[:max_posts]`.  `none` models the `NameError` raised when the
loop body never executed and `post_elements` is unbound at the `return`. -/
def scroll_and_load_posts (feed : Nat → List α) (max_posts : Int) :
    Option (List α) :=
  (scrollRun feed max_posts).post_elements.map (fun l => pySliceTo l max_posts)

/-- Replay of the loop counters: `loopState feed k` is the pair
`(posts_loaded, scroll_attempts)` after `k` executed iterations of the loop
body, ignoring the guard.  The stall counter is incremented on a no-growth
recount and is never reset. -/
def loopState (feed : Nat → List α) : Nat → Nat × Nat
  | 0 => (0, 0)
  | k + 1 =>
    if (loopState feed k).1 < (feed k).length then
      ((feed k).length, (loopState feed k).2)
    else
      ((loopState feed k).1, (loopState feed k).2 + 1)

/-- The stall counter of the replayed loop is monotone: a growth iteration
leaves it unchanged and a stall increments it; it is never reset. -/
lemma loopState_sa_mono (feed : Nat → List α) (k : Nat) :
    (loopState feed k).2 ≤ (loopState feed (k + 1)).2 := by
  simp only [loopState]
  split <;> omega

/-- Specification predicate for a run of the loop of `scroll_and_load_posts`
started at iteration `t` with `post_elements` equal to `last`: the run stops at
the first iteration count whose replayed state violates the guard, every
earlier iteration satisfied the guard, the final counters are the replayed
ones, and `post_elements` is the recount of the last executed iteration. -/
def ScrollSpec (feed : Nat → List α) (m : Int) (t : Nat) (last : Option (List α))
    (r : ScrollResult α) : Prop :=
  t ≤ r.iterations ∧
  (∀ k, t ≤ k → k < r.iterations →
    ((loopState feed k).1 : Int) < m ∧ (loopState feed k).2 < 10) ∧
  ¬ (((loopState feed r.iterations).1 : Int) < m ∧ (loopState feed r.iterations).2 < 10) ∧
  r.posts_loaded = (loopState feed r.iterations).1 ∧
  r.scroll_attempts = (loopState feed r.iterations).2 ∧
  (1 ≤ r.iterations → r.post_elements = some (feed (r.iterations - 1))) ∧
  (r.iterations = 0 → r.post_elements = last)

/-- The fuelled loop stopped at a state that already violates the guard
returns that state unchanged, for any fuel. -/
lemma scrollLoopFuel_stop (feed : Nat → List α) (m : Int) (fuel t pl sa : Nat)
    (last : Option (List α)) (h : ¬ ((pl : Int) < m ∧ sa < 10)) :
    scrollLoopFuel feed m fuel t pl sa last = ⟨pl, sa, last, t⟩ := by
  cases fuel with
  | zero => rfl
  | succ fuel => simp only [scrollLoopFuel, if_neg h]

/-- A stopped state (guard violated or fuel zero) satisfies `ScrollSpec`. -/
lemma scrollSpec_of_stop (feed : Nat → List α) (m : Int) (t : Nat)
    (last : Option (List α))
    (hg : ¬ (((loopState feed t).1 : Int) < m ∧ (loopState feed t).2 < 10))
    (hlast : (t = 0 ∧ last = none) ∨ (1 ≤ t ∧ last = some (feed (t - 1)))) :
    ScrollSpec feed m t last ⟨(loopState feed t).1, (loopState feed t).2, last, t⟩ := by
  unfold ScrollSpec
  dsimp only
  refine ⟨le_refl t, ?_, hg, rfl, rfl, ?_, ?_⟩
  · intro k hk1 hk2; omega
  · intro ht
    rcases hlast with ⟨h0, _⟩ | ⟨_, hsome⟩
    · omega
    · exact hsome
  · intro ht
    rfl

/-- Core correctness of the fuelled loop: started at iteration `t` in the
replayed state with sufficient fuel, the result satisfies `ScrollSpec`. -/
lemma scrollLoopFuel_spec (feed : Nat → List α) (m : Int) :
    ∀ fuel t last,
      (m - ((loopState feed t).1 : Int)).toNat + (10 - (loopState feed t).2) ≤ fuel →
      ((t = 0 ∧ last = none) ∨ (1 ≤ t ∧ last = some (feed (t - 1)))) →
      ScrollSpec feed m t last
        (scrollLoopFuel feed m fuel t (loopState feed t).1 (loopState feed t).2 last) := by
  intro fuel
  induction fuel with
  | zero =>
    intro t last hfuel hlast
    have hg : ¬ (((loopState feed t).1 : Int) < m ∧ (loopState feed t).2 < 10) := by
      have hsa : 10 ≤ (loopState feed t).2 := by omega
      intro hc
      omega
    exact scrollSpec_of_stop feed m t last hg hlast
  | succ fuel ih =>
    intro t last hfuel hlast
    by_cases hg : ((loopState feed t).1 : Int) < m ∧ (loopState feed t).2 < 10
    · -- the guard holds: one more iteration executes
      by_cases hc : (loopState feed t).1 < (feed t).length
      · -- growth iteration
        have hstep : loopState feed (t + 1) = ((feed t).length, (loopState feed t).2) := by
          simp only [loopState, if_pos hc]
        have hfuel' : (m - ((loopState feed (t + 1)).1 : Int)).toNat +
            (10 - (loopState feed (t + 1)).2) ≤ fuel := by
          rw [hstep]
          have h1 := hg.1
          have h2 : (loopState feed t).1 < (feed t).length := hc
          omega
        have hlast' : ((t + 1 = 0 ∧ some (feed t) = none) ∨
            (1 ≤ t + 1 ∧ some (feed t) = some (feed (t + 1 - 1)))) := by
          right
          exact ⟨Nat.le_add_left 1 t, by simp⟩
        have hrec := ih (t + 1) (some (feed t)) hfuel' hlast'
        have hunfold : scrollLoopFuel feed m (fuel + 1) t (loopState feed t).1
            (loopState feed t).2 last =
            scrollLoopFuel feed m fuel (t + 1) (loopState feed (t + 1)).1
              (loopState feed (t + 1)).2 (some (feed t)) := by
          rw [hstep]
          simp only [scrollLoopFuel, if_pos hg, if_pos hc]
        rw [hunfold]
        obtain ⟨h1, h2, h3, h4, h5, h6, h7⟩ := hrec
        refine ⟨by omega, ?_, h3, h4, h5, h6, by omega⟩
        intro k hk1 hk2
        rcases Nat.eq_or_lt_of_le hk1 with heq | hlt
        · rw [← heq]; exact hg
        · exact h2 k hlt hk2
      · -- stall iteration
        have hstep : loopState feed (t + 1) = ((loopState feed t).1, (loopState feed t).2 + 1) := by
          simp only [loopState, if_neg hc]
        have hfuel' : (m - ((loopState feed (t + 1)).1 : Int)).toNat +
            (10 - (loopState feed (t + 1)).2) ≤ fuel := by
          rw [hstep]
          have := hg.2
          omega
        have hlast' : ((t + 1 = 0 ∧ some (feed t) = none) ∨
            (1 ≤ t + 1 ∧ some (feed t) = some (feed (t + 1 - 1)))) := by
          right
          exact ⟨Nat.le_add_left 1 t, by simp⟩
        have hrec := ih (t + 1) (some (feed t)) hfuel' hlast'
        have hunfold : scrollLoopFuel feed m (fuel + 1) t (loopState feed t).1
            (loopState feed t).2 last =
            scrollLoopFuel feed m fuel (t + 1) (loopState feed (t + 1)).1
              (loopState feed (t + 1)).2 (some (feed t)) := by
          rw [hstep]
          simp only [scrollLoopFuel, if_pos hg, if_neg hc]
        rw [hunfold]
        obtain ⟨h1, h2, h3, h4, h5, h6, h7⟩ := hrec
        refine ⟨by omega, ?_, h3, h4, h5, h6, by omega⟩
        intro k hk1 hk2
        rcases Nat.eq_or_lt_of_le hk1 with heq | hlt
        · rw [← heq]; exact hg
        · exact h2 k hlt hk2
    · -- the guard fails: the loop stops here
      rw [scrollLoopFuel_stop feed m (fuel + 1) t _ _ last hg]
      exact scrollSpec_of_stop feed m t last hg hlast

/-- `scrollLoopFuel_spec` instantiated at the initial state used by
`scrollRun`: the default fuel is sufficient, so the run stops exactly at the
first iteration count whose replayed state violates the loop guard. -/
lemma scrollRun_spec (feed : Nat → List α) (m : Int) :
    ScrollSpec feed m 0 none (scrollRun feed m) := by
  have hfuel : (m - ((loopState feed 0).1 : Int)).toNat + (10 - (loopState feed 0).2) ≤
      m.toNat + 10 := by
    show (m - ((0 : Nat) : Int)).toNat + (10 - 0) ≤ m.toNat + 10
    omega
  exact scrollLoopFuel_spec feed m (m.toNat + 10) 0 none hfuel (Or.inl ⟨rfl, rfl⟩)

/-! ## Claims about the pagination loader -/

/-- A feed that alternates stall and growth: the recount at time `t` sees
`(t + 1) / 2` elements, so every even `t` is a no-growth recount and every odd
`t` grows the count by one.  No two consecutive recounts stall. -/
def altFeed : Nat → List Nat := fun t => List.replicate ((t + 1) / 2) 0

/-- `hasStallRun feed iters len = true` iff the first `iters` replayed loop
iterations contain `len` consecutive no-growth (stall) iterations. -/
def hasStallRun (feed : Nat → List Nat) (iters len : Nat) : Bool :=
  (List.range iters).any fun start =>
    decide (start + len ≤ iters) &&
    (List.range len).all fun j =>
      decide ((feed (start + j)).length ≤ (loopState feed (start + j)).1)

/-- C1 (counterexample): on the alternating feed with `max_posts = 50`, the
loop run terminates with `posts_loaded = 9 < 50` and a stall counter of `10`,
although no ten consecutive no-growth scroll attempts ever occurred (every
stall streak has length one).  The code's `scroll_attempts` counter is
cumulative — a growth iteration does not reset it — so stalls separated by
growth do accumulate toward the cap, contrary to the claim. -/
theorem C1_counterexample :
    ((scrollRun altFeed 50).posts_loaded : Int) < 50 ∧
    (scrollRun altFeed 50).scroll_attempts = 10 ∧
    hasStallRun altFeed (scrollRun altFeed 50).iterations 10 = false := by
  decide

/-- C1 (amended): the pagination loop continues iterating exactly while
loaded-count < requested max AND the cumulative count of no-growth scroll
attempts < 10; a growth iteration leaves the stall counter unchanged (it is
never reset), so stalls separated by growth accumulate toward the cap.
`loopState feed k` replays the loop body: its second component is the stall
counter after `k` iterations. -/
theorem C1_amended {α : Type} (feed : Nat → List α) (max_posts : Int) :
    (∀ k, k < (scrollRun feed max_posts).iterations →
      ((loopState feed k).1 : Int) < max_posts ∧ (loopState feed k).2 < 10) ∧
    ¬ (((loopState feed (scrollRun feed max_posts).iterations).1 : Int) < max_posts ∧
        (loopState feed (scrollRun feed max_posts).iterations).2 < 10) ∧
    (scrollRun feed max_posts).posts_loaded =
      (loopState feed (scrollRun feed max_posts).iterations).1 ∧
    (scrollRun feed max_posts).scroll_attempts =
      (loopState feed (scrollRun feed max_posts).iterations).2 ∧
    (∀ k, (loopState feed k).2 ≤ (loopState feed (k + 1)).2) := by
  obtain ⟨h1, h2, h3, h4, h5, h6, h7⟩ := scrollRun_spec feed max_posts
  exact ⟨fun k hk => h2 k (Nat.zero_le k) hk, h3, h4, h5, fun k => loopState_sa_mono feed k⟩

/-- Witness for `C1_amended` at the alternating feed and `max_posts = 50`. -/
theorem C1_amended_witness :
    (((loopState altFeed 0).1 : Int) < 50 ∧ (loopState altFeed 0).2 < 10) ∧
    ¬ (((loopState altFeed (scrollRun altFeed 50).iterations).1 : Int) < 50 ∧
        (loopState altFeed (scrollRun altFeed 50).iterations).2 < 10) :=
  ⟨(C1_amended altFeed 50).1 0 (by decide), (C1_amended altFeed 50).2.1⟩

/-- C5: for every call of the pagination loader with requested maximum
`max_posts ≥ 1`, the loop body runs at least once and the returned slice
`post_elements[:max_posts]` has length at most `max_posts`. -/
theorem C5_returned_at_most_max {α : Type} (feed : Nat → List α) (max_posts : Int)
    (h : 1 ≤ max_posts) :
    ∃ l, scroll_and_load_posts feed max_posts = some l ∧ (l.length : Int) ≤ max_posts := by
  obtain ⟨h1, h2, h3, h4, h5, h6, h7⟩ := scrollRun_spec feed max_posts
  have hiter : 1 ≤ (scrollRun feed max_posts).iterations := by
    by_contra hlt
    have h0 : (scrollRun feed max_posts).iterations = 0 := by omega
    rw [h0] at h3
    refine h3 ⟨?_, ?_⟩
    · show ((0 : Nat) : Int) < max_posts
      omega
    · show (0 : Nat) < 10
      omega
  refine ⟨pySliceTo (feed ((scrollRun feed max_posts).iterations - 1)) max_posts, ?_, ?_⟩
  · unfold scroll_and_load_posts
    rw [h6 hiter]
    rfl
  · unfold pySliceTo
    rw [if_pos (by omega : (0 : Int) ≤ max_posts)]
    have hlen := List.length_take max_posts.toNat
      (feed ((scrollRun feed max_posts).iterations - 1))
    omega

/-- Witness for `C5_returned_at_most_max` at a concrete feed and maximum. -/
theorem C5_returned_at_most_max_witness :
    (1 : Int) ≤ 3 ∧
    ∃ l, scroll_and_load_posts (fun _ => [0, 1]) (3 : Int) = some l ∧
      (l.length : Int) ≤ 3 :=
  ⟨by decide, C5_returned_at_most_max (fun _ => [0, 1]) 3 (by decide)⟩

/-- C6: against a feed that presents exactly 30 items at every recount and
never grows further, `scroll_and_load_posts` with `max_posts = 50` returns
exactly 30 elements after accumulating exactly 10 stalled scroll attempts. -/
theorem C6_plateau_feed_example :
    (scroll_and_load_posts (fun _ => List.replicate 30 (0 : Nat)) 50).map List.length =
      some 30 ∧
    (scrollRun (fun _ => List.replicate 30 (0 : Nat)) 50).scroll_attempts = 10 := by
  decide

/-- C10: called with `max_posts ≤ 0`, the loop guard `posts_loaded < max_posts`
is false at entry, the body never executes, and the `return
post_elements[:max_posts]` reads the never-bound name `post_elements`; the call
raises (modelled by `none`) instead of returning an empty list. -/
theorem C10_nonpositive_max_raises {α : Type} (feed : Nat → List α) (max_posts : Int)
    (h : max_posts ≤ 0) :
    (scrollRun feed max_posts).iterations = 0 ∧
    scroll_and_load_posts feed max_posts = none := by
  have hg : ¬ (((0 : Nat) : Int) < max_posts ∧ (0 : Nat) < 10) := by
    intro hc
    omega
  have hrun : scrollRun feed max_posts = ⟨0, 0, none, 0⟩ := by
    unfold scrollRun
    exact scrollLoopFuel_stop feed max_posts _ 0 0 0 none hg
  constructor
  · rw [hrun]
  · unfold scroll_and_load_posts
    rw [hrun]
    rfl

/-- Witness for `C10_nonpositive_max_raises` at `max_posts = 0` with a
nonempty feed. -/
theorem C10_nonpositive_max_raises_witness :
    (0 : Int) ≤ 0 ∧
    ((scrollRun (fun _ => [1, 2, 3]) (0 : Int)).iterations = 0 ∧
      scroll_and_load_posts (fun _ => [1, 2, 3]) (0 : Int) = none) :=
  ⟨by decide, C10_nonpositive_max_raises (fun _ => [1, 2, 3]) 0 (by decide)⟩

/-! ## Python string primitives used by `extract_post_data` -/

/-- Python `a or b` where `a` is a value that may be `None` (`get_attribute`
result): `None` and the empty string are falsy, so the first non-empty string
wins. -/
def pyOrStr (a : Option String) (b : String) : String :=
  match a with
  | none => b
  | some s => if s = "" then b else s

/-- Decimal digit characters of a natural number, most significant first; the
fuel is an upper bound on the digit count (`n` digits always fit in fuel
`n + 1`). -/
def natStrAux : Nat → Nat → List Char
  | 0, _ => []
  | fuel + 1, n =>
    if n = 0 then [] else natStrAux fuel (n / 10) ++ [Char.ofNat (48 + n % 10)]

/-- Python `str` of a non-negative integer. -/
def pyStrNat (n : Nat) : String :=
  if n = 0 then "0" else String.mk (natStrAux (n + 1) n)

/-- Python `str` of an `int` (a leading `-` sign for negative values). -/
def pyStrInt : Int → String
  | Int.ofNat m => pyStrNat m
  | Int.negSucc m => "-" ++ pyStrNat (m + 1)

/-- Python string slice prefix `s[:n]` (first `n` characters). -/
def strTake (s : String) (n : Nat) : String := String.mk (s.data.take n)

/-- Python string slice suffix `s[n:]` (all but the first `n` characters). -/
def strDrop (s : String) (n : Nat) : String := String.mk (s.data.drop n)

/-- Python `str.strip()`: remove leading and trailing whitespace. -/
def strStrip (s : String) : String :=
  String.mk (((s.data.dropWhile Char.isWhitespace).reverse.dropWhile
    Char.isWhitespace).reverse)

/-- Python `''.join(filter(str.isdigit, s))`: keep only the digit characters. -/
def digitFilter (s : String) : String := String.mk (s.data.filter Char.isDigit)

/-- Python `int` of a string of decimal digits. -/
def digitsToNat (s : String) : Nat :=
  s.data.foldl (fun a c => a * 10 + (c.toNat - 48)) 0

/-! ## Data model (`Post` / `Comment` dataclasses, lines 24-54) -/

/-- An untyped Python `Dict` (string keys and values); `Post.comments` and
`Comment.replies` hold these but no code path ever populates them. -/
abbrev PyDict := List (String × String)

/-- The `Post` dataclass.  The `timestamp` is an abstract instant (`Nat`);
`category` defaults to the empty string and `comments` to the empty list
(`None` is replaced by `[]` in `__post_init__`). -/
structure Post where
  id : String
  title : String
  content : String
  author : String
  timestamp : Nat
  likes : Nat
  comments_count : Nat
  url : String
  category : String := ""
  comments : List PyDict := []
  deriving DecidableEq

/-- The `Comment` dataclass (declared by the program but never constructed by
any code path). -/
structure Comment where
  id : String
  content : String
  author : String
  timestamp : Nat
  likes : Nat
  replies : List PyDict := []
  deriving DecidableEq

/-! ## Field extraction: `SkoolScraper.extract_post_data` (lines 166-297)

One rendered feed item is modelled by a `PostElement`: the attributes the code
reads directly, plus — for each per-field selector list — the list of probe
outcomes, one entry per selector (`none` = the probe raised
`NoSuchElementException`, `some txt` = the probe found an element whose `.text`
is `txt`). -/

/-- Outcome of probing one time selector: the element's `datetime` attribute
(`get_attribute` result, possibly `None`) and its `.text`. -/
structure TimeElem where
  datetimeAttr : Option String
  text : String
  deriving DecidableEq

/-- One rendered feed item as seen by `extract_post_data`.  The `raises` flag
abstracts an unclassified exception thrown by any of the element accesses: the
surrounding `try`/`except Exception` turns it into a `None` result. -/
structure PostElement where
  raises : Bool
  dataPostId : Option String
  idAttr : Option String
  outerHTML : String
  titleMatches : List (Option String)
  contentMatches : List (Option String)
  authorMatches : List (Option String)
  timeMatches : List (Option TimeElem)
  likeMatches : List (Option String)
  commentMatches : List (Option String)
  linkHref : Option (Option String)
  deriving DecidableEq

/-- The post-id fallback chain (lines 170-172):
`data-post-id` attribute, else `id` attribute, else `str(hash(outerHTML))[1:10]`,
first truthy value wins. -/
def post_id (dataPostId idAttr : Option String) (outerHTML : String)
    (pyHash : String → Int) : String :=
  pyOrStr dataPostId
    (pyOrStr idAttr (strTake (strDrop (pyStrInt (pyHash outerHTML)) 1) 9))

/-- The per-field selector loop used for title, content and author: the first
selector that locates an element wins and its stripped text is taken (even
when the stripped text is empty); a `NoSuchElementException` advances to the
next selector; `default` is the initial value kept on total failure. -/
def firstMatchLoop (default : String) : List (Option String) → String
  | [] => default
  | none :: rest => firstMatchLoop default rest
  | some txt :: _ => strStrip txt

/-- Title fallback (lines 209-211): if no title was found and the content is
non-empty, derive the title as `content[:100] + "..."` when the content is
longer than 100 characters, else the content verbatim. -/
def deriveTitle (title content : String) : String :=
  if title = "" ∧ content ≠ "" then
    if 100 < content.length then strTake content 100 ++ "..." else content
  else title

/-- The timestamp selector loop (lines 231-246): `timestamp` defaults to the
capture instant `now`; when a time element is found, `time_text` is computed
from its `datetime` attribute or text and then discarded (the parsing branch
is an unimplemented placeholder), and the loop breaks with `timestamp`
unchanged. -/
def timestampLoop (now : Nat) : List (Option TimeElem) → Nat
  | [] => now
  | none :: rest => timestampLoop now rest
  | some te :: _ =>
    let _time_text := pyOrStr te.datetimeAttr te.text
    now

/-- The likes / comment-count selector loop (lines 253-272): the found text is
stripped, filtered to digit characters and parsed with `int`; `int` of an
empty digit string raises `ValueError`, which — like `NoSuchElementException` —
is caught and advances to the next selector, keeping the default `0`.
(`int(d) or 0` equals `int(d)` in every case, since `0 or 0` is `0`.) -/
def countLoop : List (Option String) → Nat
  | [] => 0
  | none :: rest => countLoop rest
  | some txt :: rest =>
    if (digitFilter (strStrip txt)).data = [] then countLoop rest
    else digitsToNat (digitFilter (strStrip txt))

/-- The post-URL fallback (lines 274-282): the driver's current URL, replaced
by the first `<a>` element's `href` when that attribute is present and starts
with `"http"`. -/
def postUrl (current_url : String) (link : Option (Option String)) : String :=
  match link with
  | none => current_url
  | some none => current_url
  | some (some href) => if strTake href 4 = "http" then href else current_url

/-- `SkoolScraper.extract_post_data`: build a best-effort `Post` from one feed
element, or `none` when an unclassified exception is raised mid-extraction
(the catch-all `except` at lines 295-297). -/
def extract_post_data (pyHash : String → Int) (current_url : String) (now : Nat)
    (e : PostElement) : Option Post :=
  if e.raises then none
  else
    some
      ⟨post_id e.dataPostId e.idAttr e.outerHTML pyHash,
        deriveTitle (firstMatchLoop "" e.titleMatches) (firstMatchLoop "" e.contentMatches),
        firstMatchLoop "" e.contentMatches,
        firstMatchLoop "Unknown" e.authorMatches,
        timestampLoop now e.timeMatches,
        countLoop e.likeMatches,
        countLoop e.commentMatches,
        postUrl current_url e.linkHref,
        "",
        []⟩

/-! ## Batch extraction: `SkoolScraper.scrape_posts` loop (lines 307-316) -/

/-- The extraction loop of `scrape_posts` over the loaded batch: each element
is extracted, `None` results are dropped, and successful results are appended
in element order. -/
def scrape_posts (pyHash : String → Int) (current_url : String) (now : Nat)
    (elems : List PostElement) : List Post :=
  elems.foldl
    (fun acc e =>
      match extract_post_data pyHash current_url now e with
      | some p => acc ++ [p]
      | none => acc)
    []

/-! ## Exporters: `save_to_json` (lines 327-340) and `save_to_csv` (lines 357-369) -/

/-- One exported row: the nine serialized fields of a post, with the timestamp
rendered by `isoformat` (an abstract serialization `iso : Nat → String`). -/
structure ExportRow where
  id : String
  title : String
  content : String
  author : String
  timestamp : String
  likes : Nat
  comments_count : Nat
  url : String
  category : String
  deriving DecidableEq

/-- The row list built by `save_to_json` (the `posts_data` accumulation loop,
lines 327-340), before `json.dump` serializes it. -/
def save_to_json_rows (iso : Nat → String) (posts : List Post) : List ExportRow :=
  posts.foldl
    (fun acc p =>
      acc ++ [⟨p.id, p.title, p.content, p.author, iso p.timestamp, p.likes,
        p.comments_count, p.url, p.category⟩])
    []

/-- The row list built by `save_to_csv` (the `posts_data` accumulation loop,
lines 357-369), before `pandas.DataFrame(...).to_csv` serializes it. -/
def save_to_csv_rows (iso : Nat → String) (posts : List Post) : List ExportRow :=
  posts.foldl
    (fun acc p =>
      acc ++ [⟨p.id, p.title, p.content, p.author, iso p.timestamp, p.likes,
        p.comments_count, p.url, p.category⟩])
    []

/-! ## Support lemmas for the extraction claims -/

/-- A `String.mk` is the empty string iff its character list is empty. -/
lemma mk_eq_empty (l : List Char) : String.mk l = "" ↔ l = [] := by
  constructor
  · intro h
    have := congrArg String.data h
    simpa using this
  · intro h
    subst h
    rfl

/-- `natStrAux` of zero is empty for any fuel. -/
lemma natStrAux_zero (fuel : Nat) : natStrAux fuel 0 = [] := by
  cases fuel <;> simp [natStrAux]

/-- `natStrAux` of a nonzero number with nonzero fuel is nonempty. -/
lemma natStrAux_ne_nil (fuel n : Nat) (hf : 1 ≤ fuel) (hn : n ≠ 0) :
    natStrAux fuel n ≠ [] := by
  cases fuel with
  | zero => omega
  | succ f => simp [natStrAux, hn]

/-- A single-digit natural number prints as one character. -/
lemma pyStrNat_len_one (n : Nat) (h : n < 10) : (pyStrNat n).data.length = 1 := by
  unfold pyStrNat
  by_cases hn : n = 0
  · rw [if_pos hn]
    rfl
  · rw [if_neg hn]
    show (natStrAux (n + 1) n).length = 1
    simp only [natStrAux, if_neg hn]
    rw [Nat.div_eq_of_lt h, natStrAux_zero]
    rfl

/-- A natural number of at least two digits prints as at least two
characters. -/
lemma pyStrNat_two_le (n : Nat) (h : 10 ≤ n) : 2 ≤ (pyStrNat n).data.length := by
  unfold pyStrNat
  rw [if_neg (by omega)]
  show 2 ≤ (natStrAux (n + 1) n).length
  simp only [natStrAux, if_neg (by omega : ¬ n = 0)]
  have h1 : natStrAux n (n / 10) ≠ [] :=
    natStrAux_ne_nil n (n / 10) (by omega) (by omega)
  have h2 : 1 ≤ (natStrAux n (n / 10)).length := List.length_pos.mpr h1
  rw [List.length_append]
  simp only [List.length_singleton]
  omega

/-- `pyStrNat` is never the empty string. -/
lemma pyStrNat_data_ne_nil (n : Nat) : (pyStrNat n).data ≠ [] := by
  unfold pyStrNat
  by_cases hn : n = 0
  · rw [if_pos hn]
    decide
  · rw [if_neg hn]
    exact natStrAux_ne_nil (n + 1) n (by omega) hn

/-- The truncation `str(h)[1:10]` of the hash value is empty exactly when the
hash value is a single non-negative decimal digit. -/
lemma hashSlice_empty_iff (n : Int) :
    strTake (strDrop (pyStrInt n) 1) 9 = "" ↔ 0 ≤ n ∧ n < 10 := by
  show String.mk (List.take 9 (List.drop 1 (pyStrInt n).data)) = "" ↔ _
  rw [mk_eq_empty, List.take_eq_nil_iff]
  have h9 : ¬ (9 = 0) := by omega
  simp only [h9, false_or]
  rw [List.drop_eq_nil_iff]
  constructor
  · intro hlen
    cases n with
    | ofNat m =>
      have hlen' : (pyStrNat m).data.length ≤ 1 := hlen
      by_cases hm : m < 10
      · constructor
        · exact Int.ofNat_nonneg m
        · show (m : Int) < 10
          exact_mod_cast hm
      · exfalso
        have := pyStrNat_two_le m (by omega)
        omega
    | negSucc m =>
      exfalso
      have hdata : (pyStrInt (Int.negSucc m)).data =
          '-' :: (pyStrNat (m + 1)).data := by
        show (("-" : String) ++ pyStrNat (m + 1)).data = _
        rw [String.data_append]
        rfl
      rw [hdata] at hlen
      have hne := pyStrNat_data_ne_nil (m + 1)
      have h1 : 1 ≤ (pyStrNat (m + 1)).data.length := List.length_pos.mpr hne
      simp only [List.length_cons] at hlen
      omega
  · intro h
    obtain ⟨h0, h10⟩ := h
    obtain ⟨m, rfl⟩ : ∃ m : Nat, n = (m : Int) := ⟨n.toNat, (Int.toNat_of_nonneg h0).symm⟩
    have hm : m < 10 := by exact_mod_cast h10
    show (pyStrNat m).data.length ≤ 1
    rw [pyStrNat_len_one m hm]

/-! ## C2: the post-identifier fallback chain -/

/-- C2 (counterexample): when both identifier attributes are absent and the
hash of the raw markup is a single non-negative decimal digit (here `0`, which
is a value CPython's string hash can take), `str(hash(outerHTML))[1:10]` is the
empty string, so the extracted post's identifier is empty — refuting the claim
that the identifier is always a non-empty string. -/
theorem C2_counterexample :
    (extract_post_data (fun _ => 0) "https://example.com" 0
      ⟨false, none, none, "<div></div>", [], [], [], [], [], [], none⟩).map Post.id =
      some "" := by
  decide

/-- C2 (amended): the identifier is the first truthy value among the
`data-post-id` attribute, the `id` attribute, and `str(hash(outerHTML))[1:10]`
— in that priority order; it is non-empty unless both attributes are absent or
empty and the hash value is a single non-negative decimal digit (`0 ≤ h < 10`),
in which case the truncated hash (and hence the identifier) is empty. -/
theorem C2_amended (dataPostId idAttr : Option String) (outerHTML : String)
    (pyHash : String → Int) :
    (∀ s, dataPostId = some s → s ≠ "" →
      post_id dataPostId idAttr outerHTML pyHash = s) ∧
    ((dataPostId = none ∨ dataPostId = some "") →
      ∀ s, idAttr = some s → s ≠ "" →
        post_id dataPostId idAttr outerHTML pyHash = s) ∧
    ((dataPostId = none ∨ dataPostId = some "") →
      (idAttr = none ∨ idAttr = some "") →
      post_id dataPostId idAttr outerHTML pyHash =
        strTake (strDrop (pyStrInt (pyHash outerHTML)) 1) 9) ∧
    (post_id dataPostId idAttr outerHTML pyHash = "" ↔
      ((dataPostId = none ∨ dataPostId = some "") ∧
        (idAttr = none ∨ idAttr = some "") ∧
        0 ≤ pyHash outerHTML ∧ pyHash outerHTML < 10)) := by
  have hfalsy : ∀ (a : Option String) (b : String),
      (a = none ∨ a = some "") → pyOrStr a b = b := by
    intro a b hab
    rcases hab with h | h <;> rw [h] <;> simp [pyOrStr]
  have htruthy : ∀ (a : Option String) (b s : String),
      a = some s → s ≠ "" → pyOrStr a b = s := by
    intro a b s ha hs
    rw [ha]
    simp [pyOrStr, hs]
  refine ⟨?_, ?_, ?_, ?_⟩
  · intro s hs hne
    unfold post_id
    exact htruthy _ _ s hs hne
  · intro hd s hs hne
    unfold post_id
    rw [hfalsy _ _ hd]
    exact htruthy _ _ s hs hne
  · intro hd hi
    unfold post_id
    rw [hfalsy _ _ hd, hfalsy _ _ hi]
  · constructor
    · intro hempty
      rcases hd : dataPostId with _ | s
      · rcases hi : idAttr with _ | t
        · refine ⟨Or.inl rfl, Or.inl rfl, ?_⟩
          rw [← hashSlice_empty_iff]
          unfold post_id at hempty
          rw [hfalsy _ _ (Or.inl hd), hfalsy _ _ (Or.inl hi)] at hempty
          exact hempty
        · by_cases ht : t = ""
          · subst ht
            refine ⟨Or.inl rfl, Or.inr rfl, ?_⟩
            rw [← hashSlice_empty_iff]
            unfold post_id at hempty
            rw [hfalsy _ _ (Or.inl hd), hfalsy _ _ (Or.inr hi)] at hempty
            exact hempty
          · exfalso
            unfold post_id at hempty
            rw [hfalsy _ _ (Or.inl hd), htruthy _ _ t hi ht] at hempty
            exact ht hempty
      · by_cases hs : s = ""
        · subst hs
          rcases hi : idAttr with _ | t
          · refine ⟨Or.inr rfl, Or.inl rfl, ?_⟩
            rw [← hashSlice_empty_iff]
            unfold post_id at hempty
            rw [hfalsy _ _ (Or.inr hd), hfalsy _ _ (Or.inl hi)] at hempty
            exact hempty
          · by_cases ht : t = ""
            · subst ht
              refine ⟨Or.inr rfl, Or.inr rfl, ?_⟩
              rw [← hashSlice_empty_iff]
              unfold post_id at hempty
              rw [hfalsy _ _ (Or.inr hd), hfalsy _ _ (Or.inr hi)] at hempty
              exact hempty
            · exfalso
              unfold post_id at hempty
              rw [hfalsy _ _ (Or.inr hd), htruthy _ _ t hi ht] at hempty
              exact ht hempty
        · exfalso
          unfold post_id at hempty
          rw [htruthy _ _ s hd hs] at hempty
          exact hs hempty
    · intro ⟨hd, hi, h0, h10⟩
      unfold post_id
      rw [hfalsy _ _ hd, hfalsy _ _ hi]
      exact (hashSlice_empty_iff (pyHash outerHTML)).mpr ⟨h0, h10⟩

/-- Witness for `C2_amended`: a present, non-empty `data-post-id` attribute
wins the chain. -/
theorem C2_amended_witness :
    post_id (some "post-17") none "<div></div>" (fun _ => 0) = "post-17" :=
  (C2_amended (some "post-17") none "<div></div>" (fun _ => 0)).1 "post-17" rfl
    (by decide)

/-! ## Shared extraction lemmas -/

/-- On a non-raising element, `extract_post_data` returns exactly the record
assembled from the per-field loops. -/
lemma extract_post_data_eq (pyHash : String → Int) (current_url : String)
    (now : Nat) (e : PostElement) (h0 : e.raises = false) :
    extract_post_data pyHash current_url now e =
      some
        ⟨post_id e.dataPostId e.idAttr e.outerHTML pyHash,
          deriveTitle (firstMatchLoop "" e.titleMatches)
            (firstMatchLoop "" e.contentMatches),
          firstMatchLoop "" e.contentMatches,
          firstMatchLoop "Unknown" e.authorMatches,
          timestampLoop now e.timeMatches,
          countLoop e.likeMatches,
          countLoop e.commentMatches,
          postUrl current_url e.linkHref, "", []⟩ := by
  unfold extract_post_data
  rw [h0]
  rfl

/-- Every character of the stripped string occurs in the original string. -/
lemma mem_strStrip {s : String} {c : Char} (hc : c ∈ (strStrip s).data) :
    c ∈ s.data := by
  have hc' : c ∈ ((s.data.dropWhile Char.isWhitespace).reverse.dropWhile
      Char.isWhitespace).reverse := hc
  rw [List.mem_reverse] at hc'
  have h2 : c ∈ (s.data.dropWhile Char.isWhitespace).reverse :=
    (List.dropWhile_sublist _).subset hc'
  rw [List.mem_reverse] at h2
  exact (List.dropWhile_sublist _).subset h2

/-- Decidable form of "every found candidate text is digit-free". -/
def allTextsDigitFree (texts : List (Option String)) : Bool :=
  texts.all fun o =>
    match o with
    | none => true
    | some raw => raw.data.all fun c => !c.isDigit

/-- When every found candidate text is digit-free, the likes/comment-count
selector loop keeps the default `0`: each found text filters to the empty
digit string, `int` of which raises the `ValueError` that the loop catches. -/
lemma countLoop_zero (texts : List (Option String))
    (h : allTextsDigitFree texts = true) : countLoop texts = 0 := by
  induction texts with
  | nil => rfl
  | cons o rest ih =>
    rw [allTextsDigitFree, List.all_cons, Bool.and_eq_true] at h
    obtain ⟨ho, hrest⟩ := h
    have hrest' : allTextsDigitFree rest = true := hrest
    cases o with
    | none =>
      simp only [countLoop]
      exact ih hrest'
    | some raw =>
      simp only [countLoop]
      have hdf : (digitFilter (strStrip raw)).data = [] := by
        show List.filter Char.isDigit (strStrip raw).data = []
        rw [List.filter_eq_nil_iff]
        intro c hcmem
        have hcraw := mem_strStrip hcmem
        have hall : (raw.data.all fun c => !c.isDigit) = true := ho
        rw [List.all_eq_true] at hall
        have := hall c hcraw
        simpa using this
      rw [if_pos hdf]
      exact ih hrest'

/-- A selector loop over probes that all failed keeps its default. -/
lemma firstMatchLoop_all_none (d : String) (l : List (Option String))
    (h : ∀ x ∈ l, x = none) : firstMatchLoop d l = d := by
  induction l with
  | nil => rfl
  | cons x rest ih =>
    have hx : x = none := h x (List.mem_cons_self x rest)
    subst hx
    simp only [firstMatchLoop]
    exact ih fun y hy => h y (List.mem_cons_of_mem _ hy)

/-- The timestamp loop returns the capture instant regardless of which time
elements were found and what their text is. -/
lemma timestampLoop_eq (now : Nat) (l : List (Option TimeElem)) :
    timestampLoop now l = now := by
  induction l with
  | nil => rfl
  | cons o rest ih =>
    cases o with
    | none =>
      simp only [timestampLoop]
      exact ih
    | some te => rfl

/-! ## C3: digit-free likes / comment-count texts parse to the default 0 -/

/-- C3: for an element (that does not raise) on which every found likes text
and every found comment-count text contains no digit characters, the extracted
post records `likes = 0` and `comments_count = 0` — the defaults — rather than
propagating a parse error. -/
theorem C3_digit_free_counts_zero (pyHash : String → Int) (current_url : String)
    (now : Nat) (e : PostElement) (h0 : e.raises = false)
    (hl : allTextsDigitFree e.likeMatches = true)
    (hc : allTextsDigitFree e.commentMatches = true) :
    ∃ p, extract_post_data pyHash current_url now e = some p ∧
      p.likes = 0 ∧ p.comments_count = 0 := by
  refine ⟨_, extract_post_data_eq pyHash current_url now e h0, ?_, ?_⟩
  · exact countLoop_zero _ hl
  · exact countLoop_zero _ hc

/-- Concrete element for the C3 witness: the likes and comment-count texts
contain no digits. -/
def elemC3 : PostElement :=
  ⟨false, some "p9", none, "<div/>", [none], [some "hello"], [none], [none],
    [none, some "no likes yet"], [some "- comments -"], none⟩

/-- Witness for `C3_digit_free_counts_zero` on `elemC3`. -/
theorem C3_digit_free_counts_zero_witness :
    (elemC3.raises = false ∧ allTextsDigitFree elemC3.likeMatches = true ∧
      allTextsDigitFree elemC3.commentMatches = true) ∧
    ∃ p, extract_post_data (fun _ => 0) "https://example.com" 5 elemC3 = some p ∧
      p.likes = 0 ∧ p.comments_count = 0 :=
  ⟨⟨rfl, by decide, by decide⟩,
    C3_digit_free_counts_zero (fun _ => 0) "https://example.com" 5 elemC3 rfl
      (by decide) (by decide)⟩

/-! ## C4: title derived from content when no title selector matches -/

/-- C4: for an element (that does not raise) on which no title selector
matches, the derived title is: empty when the content is empty; the first 100
characters of the content followed by the `"..."` marker when the content is
longer than 100 characters; and the content verbatim otherwise. -/
theorem C4_title_fallback (pyHash : String → Int) (current_url : String)
    (now : Nat) (e : PostElement) (h0 : e.raises = false)
    (ht : ∀ x ∈ e.titleMatches, x = none) :
    ∃ p, extract_post_data pyHash current_url now e = some p ∧
      (p.content = "" → p.title = "") ∧
      (p.content ≠ "" → 100 < p.content.length →
        p.title = strTake p.content 100 ++ "...") ∧
      (p.content ≠ "" → p.content.length ≤ 100 → p.title = p.content) := by
  refine ⟨_, extract_post_data_eq pyHash current_url now e h0, ?_, ?_, ?_⟩
  · intro hcon
    have hcon' : firstMatchLoop "" e.contentMatches = "" := hcon
    show deriveTitle (firstMatchLoop "" e.titleMatches)
      (firstMatchLoop "" e.contentMatches) = ""
    rw [firstMatchLoop_all_none _ _ ht, hcon']
    unfold deriveTitle
    simp
  · intro hne hlen
    have hne' : firstMatchLoop "" e.contentMatches ≠ "" := hne
    have hlen' : 100 < (firstMatchLoop "" e.contentMatches).length := hlen
    show deriveTitle (firstMatchLoop "" e.titleMatches)
      (firstMatchLoop "" e.contentMatches) =
      strTake (firstMatchLoop "" e.contentMatches) 100 ++ "..."
    rw [firstMatchLoop_all_none _ _ ht]
    unfold deriveTitle
    rw [if_pos ⟨rfl, hne'⟩, if_pos hlen']
  · intro hne hlen
    have hne' : firstMatchLoop "" e.contentMatches ≠ "" := hne
    have hlen' : ¬ (100 < (firstMatchLoop "" e.contentMatches).length) := by
      have hlen'' : (firstMatchLoop "" e.contentMatches).length ≤ 100 := hlen
      omega
    show deriveTitle (firstMatchLoop "" e.titleMatches)
      (firstMatchLoop "" e.contentMatches) = firstMatchLoop "" e.contentMatches
    rw [firstMatchLoop_all_none _ _ ht]
    unfold deriveTitle
    rw [if_pos ⟨rfl, hne'⟩, if_neg hlen']

/-- A content string of 105 identical characters, longer than the 100-character
truncation threshold. -/
def longContent : String := String.mk (List.replicate 105 'a')

/-- Concrete element for the C4 witness: all four title probes fail, content
is 105 characters long. -/
def elemC4 : PostElement :=
  ⟨false, some "p4", none, "<div/>", [none, none, none, none], [some longContent],
    [none], [none], [none], [none], none⟩

/-- Witness for `C4_title_fallback` on `elemC4`. -/
theorem C4_title_fallback_witness :
    (elemC4.raises = false ∧ ∀ x ∈ elemC4.titleMatches, x = none) ∧
    ∃ p, extract_post_data (fun _ => 0) "https://example.com" 5 elemC4 = some p ∧
      (p.content = "" → p.title = "") ∧
      (p.content ≠ "" → 100 < p.content.length →
        p.title = strTake p.content 100 ++ "...") ∧
      (p.content ≠ "" → p.content.length ≤ 100 → p.title = p.content) :=
  ⟨⟨rfl, by decide⟩,
    C4_title_fallback (fun _ => 0) "https://example.com" 5 elemC4 rfl (by decide)⟩

/-! ## C7: timestamps are always the capture instant -/

/-- C7: for every element (that does not raise), the extracted post's
timestamp equals the capture instant `now`; the probe results for the time
selectors — including any found element's `datetime` attribute and text — are
discarded and never influence the stored timestamp. -/
theorem C7_timestamp_capture_instant (pyHash : String → Int) (current_url : String)
    (now : Nat) (e : PostElement) (h0 : e.raises = false) :
    ∃ p, extract_post_data pyHash current_url now e = some p ∧ p.timestamp = now :=
  ⟨_, extract_post_data_eq pyHash current_url now e h0,
    timestampLoop_eq now e.timeMatches⟩

/-- Concrete element for the C7 witness: a time element with a `datetime`
attribute and text is present, yet the timestamp is the capture instant. -/
def elemC7 : PostElement :=
  ⟨false, some "p7", none, "<div/>", [none], [some "hi"], [none],
    [none, some ⟨some "2024-01-01T00:00:00", "Jan 1"⟩], [none], [none], none⟩

/-- Witness for `C7_timestamp_capture_instant` on `elemC7`. -/
theorem C7_timestamp_capture_instant_witness :
    elemC7.raises = false ∧
    ∃ p, extract_post_data (fun _ => 0) "https://example.com" 42 elemC7 = some p ∧
      p.timestamp = 42 :=
  ⟨rfl, C7_timestamp_capture_instant (fun _ => 0) "https://example.com" 42 elemC7 rfl⟩

/-! ## C8: the JSON and CSV exports agree row by row -/

/-- The JSON exporter emits one row per post. -/
lemma export_rows_length (iso : Nat → String) (posts : List Post) :
    (save_to_json_rows iso posts).length = posts.length := by
  suffices h : ∀ (l : List Post) (acc : List ExportRow),
      (List.foldl
        (fun acc p =>
          acc ++ [(⟨p.id, p.title, p.content, p.author, iso p.timestamp, p.likes,
            p.comments_count, p.url, p.category⟩ : ExportRow)])
        acc l).length = acc.length + l.length by
    have := h posts []
    simpa [save_to_json_rows] using this
  intro l
  induction l with
  | nil =>
    intro acc
    simp
  | cons x xs ih =>
    intro acc
    rw [List.foldl_cons, ih]
    simp
    omega

/-- C8: the row lists built by `save_to_json` and `save_to_csv` from the same
in-memory post collection are identical — same number of rows, same order,
same nine field values per row — and contain one row per post. -/
theorem C8_exports_agree (iso : Nat → String) (posts : List Post) :
    save_to_json_rows iso posts = save_to_csv_rows iso posts ∧
    (save_to_json_rows iso posts).length = posts.length ∧
    (save_to_csv_rows iso posts).length = posts.length := by
  refine ⟨rfl, export_rows_length iso posts, ?_⟩
  show (save_to_json_rows iso posts).length = posts.length
  exact export_rows_length iso posts

/-! ## C9: per-item exceptions drop only that item -/

/-- The batch loop of `scrape_posts` computes exactly the `filterMap` of
single-item extraction over the batch, in element order. -/
lemma scrape_posts_eq_filterMap (pyHash : String → Int) (current_url : String)
    (now : Nat) (elems : List PostElement) :
    scrape_posts pyHash current_url now elems =
      elems.filterMap (extract_post_data pyHash current_url now) := by
  suffices h : ∀ (l : List PostElement) (acc : List Post),
      List.foldl
        (fun acc e =>
          match extract_post_data pyHash current_url now e with
          | some p => acc ++ [p]
          | none => acc)
        acc l = acc ++ l.filterMap (extract_post_data pyHash current_url now) by
    simpa [scrape_posts] using h elems []
  intro l
  induction l with
  | nil =>
    intro acc
    simp
  | cons e es ih =>
    intro acc
    rw [List.foldl_cons, List.filterMap_cons]
    cases hx : extract_post_data pyHash current_url now e with
    | none =>
      simp only [hx]
      rw [ih]
    | some p =>
      simp only [hx]
      rw [ih]
      simp

/-- C9: an exception during the extraction of one element yields a `None`
result for that element only, and the scraped batch is exactly the sequence
of non-`None` extraction results in element order. -/
theorem C9_batch_isolation (pyHash : String → Int) (current_url : String)
    (now : Nat) (elems : List PostElement) :
    scrape_posts pyHash current_url now elems =
      elems.filterMap (extract_post_data pyHash current_url now) ∧
    ∀ e, e ∈ elems → e.raises = true →
      extract_post_data pyHash current_url now e = none := by
  refine ⟨scrape_posts_eq_filterMap pyHash current_url now elems, ?_⟩
  intro e _ hr
  unfold extract_post_data
  rw [hr]
  rfl

/-- Concrete healthy element for the C9 witness. -/
def elemOk : PostElement :=
  ⟨false, some "a1", none, "<div>ok</div>", [none], [some "hello"], [none], [none],
    [some "3 likes"], [some "2 comments"], some (some "https://skool.com/p/1")⟩

/-- Concrete element whose extraction raises, for the C9 witness. -/
def elemBad : PostElement :=
  ⟨true, none, none, "<div>broken</div>", [], [], [], [], [], [], none⟩

/-- Witness for `C9_batch_isolation`: the raising element in the middle of the
batch is dropped and the batch result is the `filterMap` of extraction. -/
theorem C9_batch_isolation_witness :
    extract_post_data (fun _ => 0) "https://example.com" 7 elemBad = none ∧
    scrape_posts (fun _ => 0) "https://example.com" 7 [elemOk, elemBad, elemOk] =
      List.filterMap (extract_post_data (fun _ => 0) "https://example.com" 7)
        [elemOk, elemBad, elemOk] :=
  ⟨(C9_batch_isolation (fun _ => 0) "https://example.com" 7
      [elemOk, elemBad, elemOk]).2 elemBad (by decide) rfl,
    (C9_batch_isolation (fun _ => 0) "https://example.com" 7
      [elemOk, elemBad, elemOk]).1⟩

end Skool
